import Mathlib

/-!
Verification of the English-practice speech backend.

The definitions below are a shallow embedding of the repository's Python
sources:

* `config.py` — configuration constants and the static grammar rule table;
* `image_create.py` (the embedded config-driven Flask app, the canonical
  pipeline per the spec's design notes) — `allowed_file`,
  `convert_to_wav_compatible`'s output-path computation, `normalize_audio`,
  `analyze_basic_grammar`, the `/transcribe` handler `transcribe_audio`
  (with its `finally` cleanup) and the `/analyze` handler `analyze_speech`;
* `speech_processor.py` — its `normalize_audio` is textually identical to
  the config-driven one.

External collaborators (Flask request parsing, werkzeug's
`secure_filename`, pydub decoding, soundfile I/O, Whisper, the LM Studio
HTTP service) are modelled as oracle inputs: the embedding takes their
outcomes as parameters and models exactly the repository's control flow
over those outcomes.  The filesystem is modelled as the list of paths that
currently exist.  Audio samples (NumPy float64 in the source) are modelled
as exact rationals: the claims proved about normalization concern its
control flow (whether a division is performed at all), which is independent
of the floating-point representation.
-/

/-! ## Configuration constants (`config.py`, class `Config`) -/

/-- `MAX_CONTENT_LENGTH = 16 * 1024 * 1024` (config.py). -/
def MAX_CONTENT_LENGTH : Nat := 16 * 1024 * 1024

/-- `MIN_AUDIO_SIZE = 1000` bytes (config.py). -/
def MIN_AUDIO_SIZE : Nat := 1000

/-- `ALLOWED_EXTENSIONS = {'mp3', 'wav', 'm4a', 'ogg'}` (config.py). -/
def ALLOWED_EXTENSIONS : List String := ["mp3", "wav", "m4a", "ogg"]

/-- `WHISPER_LANGUAGE = 'en'` (config.py). -/
def WHISPER_LANGUAGE : String := "en"

/-- `AUDIO_UPLOAD_FOLDER = 'audio_uploads'` (config.py). -/
def AUDIO_UPLOAD_FOLDER : String := "audio_uploads"

/-- The audio storage folder `app.config['AUDIO_FOLDER']`
(`BASE_DIR/static/audio_uploads` in config.py; the machine-dependent
`BASE_DIR` prefix is dropped — only path identity matters to the claims). -/
def AUDIO_FOLDER : String := "static/audio_uploads"

/-- `LM_STUDIO_TIMEOUT = 30` seconds (config.py). -/
def LM_STUDIO_TIMEOUT : Nat := 30

/-- `LM_STUDIO_MAX_TOKENS = 500` (config.py). -/
def LM_STUDIO_MAX_TOKENS : Nat := 500

/-- `LM_STUDIO_TEMPERATURE = 0.7` (config.py). -/
def LM_STUDIO_TEMPERATURE : ℚ := 7 / 10

/-- `DEFAULT_MODEL = 'llama-3.2-3b-instruct'` (config.py). -/
def DEFAULT_MODEL : String := "llama-3.2-3b-instruct"

/-! ## String helpers (Python semantics) -/

/-- Python list/str prefix test on character lists. -/
def leadsWith : List Char → List Char → Bool
  | [], _ => true
  | _ :: _, [] => false
  | a :: as, b :: bs => decide (a = b) && leadsWith as bs

/-- `charsContains needle hay` is Python's `needle in hay` on the underlying
character lists (substring containment; the empty needle is contained in
everything, as in Python). -/
def charsContains (needle : List Char) : List Char → Bool
  | [] => leadsWith needle []
  | c :: rest => leadsWith needle (c :: rest) || charsContains needle rest

/-- Python's `needle in haystack` for strings. -/
def strContains (haystack needle : String) : Bool :=
  charsContains needle.data haystack.data

/-- Python's `filename.rsplit('.', 1)[1]`: the text after the last dot. -/
def afterLastDot (s : String) : String :=
  String.mk ((s.data.reverse.takeWhile (fun c => decide (c ≠ '.'))).reverse)

/-- Python's `os.path.basename`: the text after the last `/`. -/
def basename (p : String) : String :=
  String.mk ((p.data.reverse.takeWhile (fun c => decide (c ≠ '/'))).reverse)

/-- Python's `os.path.splitext(name)[0]` — the name with its final
extension removed — for names that do not begin with a dot (every name this
pipeline feeds it starts with `audio_`, so the `.bashrc` special case of
`splitext` cannot arise). -/
def splitextRoot (s : String) : String :=
  if s.data.contains '.' then
    String.mk (((s.data.reverse.dropWhile (fun c => decide (c ≠ '.'))).drop 1).reverse)
  else s

/-- ASCII lower-casing of one character (Python's `str.lower`, restricted
to ASCII — file extensions here are ASCII). -/
def lowerChar (c : Char) : Char :=
  if 'A' ≤ c ∧ c ≤ 'Z' then Char.ofNat (c.toNat + 32) else c

/-- Python's `s.lower()` for ASCII strings. -/
def strLower (s : String) : String := String.mk (s.data.map lowerChar)

/-- `allowed_file` (image_create.py): `'.' in filename and
filename.rsplit('.', 1)[1].lower() in ALLOWED_EXTENSIONS`. -/
def allowed_file (filename : String) : Bool :=
  filename.data.contains '.' &&
    ALLOWED_EXTENSIONS.contains (strLower (afterLastDot filename))

/-! ## The static grammar rule table (`config.py`, `GRAMMAR_CORRECTIONS`) -/

/-- One fallback grammar rule: a wrong phrase and its correction
(`{"wrong": ..., "correct": ...}` in config.py). -/
structure GrammarRule where
  wrong : String
  correct : String
deriving DecidableEq

/-- `GRAMMAR_CORRECTIONS` (config.py), in source order. -/
def GRAMMAR_CORRECTIONS : List GrammarRule :=
  [⟨"have completed", "completed"⟩,
   ⟨"in Coimbatore KIT College", "at KIT College in Coimbatore"⟩,
   ⟨"in 2019 from January 1st", "on January 1, 2019"⟩,
   ⟨"a fresh air", "a fresher"⟩,
   ⟨"100 application development", "Android application development"⟩,
   ⟨"under 6 months course", "a six-month course"⟩,
   ⟨"we started in my company they changed their language",
    "my company changed its primary language"⟩,
   ⟨"Python Floss", "Python Flask"⟩,
   ⟨"landed in", "transitioned to"⟩,
   ⟨"I promoted to", "I was promoted to"⟩,
   ⟨"had 4 team members", "had a team of 4 members"⟩,
   ⟨"I have completed", "I completed"⟩,
   ⟨"I am working in", "I work at"⟩,
   ⟨"I am doing job", "I work"⟩,
   ⟨"good marks", "good grades"⟩,
   ⟨"give exam", "take an exam"⟩,
   ⟨"passed out", "graduated"⟩,
   ⟨"doing masters", "pursuing a master\x27s degree"⟩,
   ⟨"marriage function", "wedding ceremony"⟩,
   ⟨"I have doubt", "I have a question"⟩]

/-! ## `analyze_basic_grammar` (image_create.py) -/

/-- The numbered correction line the loop appends for the `n`-th match:
`f"{found_mistakes}. **Correction:** \"{wrong}\" should be \"{correct}\".\n"`. -/
def correctionLine (n : Nat) (r : GrammarRule) : String :=
  toString n ++ ". **Correction:** \"" ++ r.wrong ++ "\" should be \""
    ++ r.correct ++ "\".\n"

/-- The opening header `"### Basic Grammar Feedback:\n\n"`. -/
def feedbackHeader : String := "### Basic Grammar Feedback:\n\n"

/-- The fixed message returned when no rule matched. -/
def noMistakesMsg : String :=
  "Great job! I didn\x27t detect any of these common grammar mistakes. Keep practicing!"

/-- The closing encouragement appended when `found` rules matched:
`f"\n**Keep up the great work!** Focusing on these {found} points will make your English even more fluent."`. -/
def closingLine (found : Nat) : String :=
  "\n**Keep up the great work!** Focusing on these " ++ toString found
    ++ " points will make your English even more fluent."

/-- The `for mistake in GRAMMAR_CORRECTIONS:` loop of
`analyze_basic_grammar`, threading the accumulated feedback text and the
`found_mistakes` counter. -/
def grammarLoop (transcript : String) :
    List GrammarRule → String → Nat → String × Nat
  | [], feedback, found => (feedback, found)
  | r :: rs, feedback, found =>
    if strContains transcript r.wrong then
      grammarLoop transcript rs (feedback ++ correctionLine (found + 1) r) (found + 1)
    else
      grammarLoop transcript rs feedback found

/-- `analyze_basic_grammar` (image_create.py): the rule-based fallback
grammar feedback. -/
def analyze_basic_grammar (transcript : String) : String :=
  let res := grammarLoop transcript GRAMMAR_CORRECTIONS feedbackHeader 0
  if res.2 = 0 then noMistakesMsg
  else res.1 ++ closingLine res.2

/-- The rules whose wrong phrase occurs in the transcript, in table order
(the rules whose loop iteration takes the `if` branch). -/
def matchedRules (t : String) : List GrammarRule :=
  GRAMMAR_CORRECTIONS.filter (fun r => strContains t r.wrong)

/-- The block of correction lines for the given rules, numbered
`n + 1, n + 2, ...`. -/
def numberedLinesFrom (n : Nat) : List GrammarRule → String
  | [] => ""
  | r :: rs => correctionLine (n + 1) r ++ numberedLinesFrom (n + 1) rs

/-! ## `normalize_audio` (speech_processor.py and image_create.py — the two
copies are textually identical).

`sf.read` yields the decoded sample array; multi-channel input is first
averaged to one channel by `np.mean(data, axis=1)`, so the model takes the
mono sample list.  Samples are exact rationals standing for the float64
values; the properties proved concern only the control flow (whether the
division branch runs). -/

/-- `np.max(np.abs(data))`: `none` models the `ValueError` NumPy raises on
an empty array (caught by the handler's `except`, which prints a
normalization warning and continues). -/
def npMaxAbs : List ℚ → Option ℚ
  | [] => none
  | x :: xs => some ((xs.map (fun v => |v|)).foldl max |x|)

/-- The observable outcome of `normalize_audio`. -/
inductive NormalizeResult where
  /-- `max_abs > 0`: every sample was divided by the peak and the file was
  rewritten with the scaled data. -/
  | written (newData : List ℚ)
  /-- `max_abs == 0`: the guard failed, nothing was divided or written, and
  no error was signalled. -/
  | unchanged
  /-- an exception inside the `try` was caught; a warning was printed and
  processing continued. -/
  | warned
deriving DecidableEq

/-- `normalize_audio` (speech_processor.py lines 47-59 = image_create.py
lines 100-112). -/
def normalize_audio (data : List ℚ) : NormalizeResult :=
  match npMaxAbs data with
  | none => .warned
  | some max_abs =>
    if 0 < max_abs then .written (data.map (fun x => x / max_abs))
    else .unchanged

/-! ## The filesystem model and the `/transcribe` handler (image_create.py).

The filesystem is the list of paths that exist; saving a file conses its
path, `os.remove` filters it out, `os.path.exists` is membership.
`normalize_audio` rewrites the converted file in place and never raises, so
it neither adds nor removes a path. -/

/-- `if path and os.path.exists(path): os.remove(path)` — one arm of the
`finally` cleanup (check-then-delete; `none` models a variable still
`None`). -/
def checkDelete (p : Option String) (fs : List String) : List String :=
  match p with
  | none => fs
  | some path =>
    if path ∈ fs then fs.filter (fun q => decide (q ≠ path)) else fs

/-- The whole `finally` block of `transcribe_audio`: first the original
upload, then the converted file. -/
def cleanupFiles (orig fixed : Option String) (fs : List String) : List String :=
  checkDelete fixed (checkDelete orig fs)

/-- The parts of a `/transcribe` request the handler reads.  `hasAudio` is
`'audio' in request.files`; `safeFilename` is `secure_filename(filename)`
(werkzeug, external); `timestamp` and `uniqueId` are the
`datetime.now().strftime(...)` and `uuid4()[:8]` values drawn for this
request; `fileSize` is the byte length measured by seek/tell. -/
structure TranscribeRequest where
  hasAudio : Bool
  filename : String
  safeFilename : String
  timestamp : String
  uniqueId : String
  fileSize : Nat

/-- Outcome of `AudioSegment.from_file`/`export` inside
`convert_to_wav_compatible`: `fail msg` models the caught exception that is
re-raised as `RuntimeError(f"Audio conversion failed: {msg}")`. -/
inductive ConvertResult where
  | ok
  | fail (msg : String)

/-- Outcome of `model.transcribe`: the raw text of `result['text']`, or a
raised exception. -/
inductive WhisperResult where
  | ok (text : String)
  | fail (msg : String)

/-- The external-collaborator outcomes consumed by one `/transcribe` call. -/
structure Oracle where
  convert : ConvertResult
  whisper : WhisperResult

/-- `f"audio_{timestamp}_{unique_id}_{safe_filename}"`. -/
def finalFilename (req : TranscribeRequest) : String :=
  "audio_" ++ req.timestamp ++ "_" ++ req.uniqueId ++ "_" ++ req.safeFilename

/-- `os.path.join(app.config['AUDIO_FOLDER'], final_filename)`. -/
def originalPath (req : TranscribeRequest) : String :=
  AUDIO_FOLDER ++ "/" ++ finalFilename req

/-- The output path computed by `convert_to_wav_compatible`:
`os.path.join(AUDIO_FOLDER, f"{splitext(basename(input_path))[0]}_fixed.wav")`. -/
def fixedPath (req : TranscribeRequest) : String :=
  AUDIO_FOLDER ++ "/" ++ splitextRoot (basename (originalPath req)) ++ "_fixed.wav"

/-- A `/transcribe` HTTP result: `err status msg` models
`jsonify({'error': msg, ...}), status`; `ok ...` models the 200 payload
`{transcript, language, success: True, file_size, filename, static_path}`. -/
inductive TranscribeResponse where
  | err (status : Nat) (msg : String)
  | ok (transcript language : String) (file_size : Nat)
      (filename static_path : String)
deriving DecidableEq

/-- `transcribe_audio` — the `/transcribe` handler of the config-driven app
(image_create.py lines 170-241), returning the HTTP result and the
filesystem after the `finally` cleanup ran.  Each early `return` and each
caught exception flows through `cleanupFiles` with exactly the path
variables that were non-`None` at that point (both paths are assigned
before the size checks but the files only exist once saved/exported). -/
def transcribe_audio (req : TranscribeRequest) (o : Oracle) (fs : List String) :
    TranscribeResponse × List String :=
  if req.hasAudio = false then
    (.err 400 "No audio file provided", cleanupFiles none none fs)
  else if req.filename = "" then
    (.err 400 "No file selected", cleanupFiles none none fs)
  else if allowed_file req.filename = false then
    (.err 400 "File type not allowed", cleanupFiles none none fs)
  else if MAX_CONTENT_LENGTH < req.fileSize then
    (.err 413 "File too large", cleanupFiles (some (originalPath req)) none fs)
  else if req.fileSize < MIN_AUDIO_SIZE then
    (.err 400 "File too small or empty", cleanupFiles (some (originalPath req)) none fs)
  else
    match o.convert with
    | .fail msg =>
      (.err 500 ("Transcription failed: Audio conversion failed: " ++ msg),
       cleanupFiles (some (originalPath req)) none (originalPath req :: fs))
    | .ok =>
      match o.whisper with
      | .fail msg =>
        (.err 500 ("Transcription failed: " ++ msg),
         cleanupFiles (some (originalPath req)) (some (fixedPath req))
           (fixedPath req :: originalPath req :: fs))
      | .ok text =>
        (.ok text.trim WHISPER_LANGUAGE req.fileSize (finalFilename req)
           ("static/" ++ AUDIO_UPLOAD_FOLDER ++ "/" ++ basename (fixedPath req)),
         cleanupFiles (some (originalPath req)) (some (fixedPath req))
           (fixedPath req :: originalPath req :: fs))

/-- The validation conjunction under which the handler reaches the
save/convert/transcribe stage. -/
def validUpload (req : TranscribeRequest) : Prop :=
  req.hasAudio = true ∧ req.filename ≠ "" ∧ allowed_file req.filename = true ∧
    req.fileSize ≤ MAX_CONTENT_LENGTH ∧ MIN_AUDIO_SIZE ≤ req.fileSize

/-! ## The `/analyze` handler (image_create.py lines 243-296) -/

/-- The LM Studio chat-completion call as the handler builds it
(image_create.py lines 255-269): model name, the two messages, and the
sampling/transport parameters taken from config. -/
structure ChatCompletionRequest where
  model : String
  systemMessage : String
  userPrompt : String
  temperature : ℚ
  max_tokens : Nat
  timeoutSeconds : Nat

/-- `AI_SYSTEM_MESSAGE` (config.py). -/
def AI_SYSTEM_MESSAGE : String :=
  "You are a helpful and expert English language teacher."

/-- `AI_FEEDBACK_PROMPT.format(transcript=transcript)` (config.py): the
user prompt with the transcript spliced in verbatim. -/
def AI_FEEDBACK_PROMPT (transcript : String) : String :=
  "You are an English language teacher helping a student improve their speaking skills. \nPlease analyze this transcript and provide helpful feedback:\n\""
    ++ transcript
    ++ "\"\n\nFocus on:\n1. Grammar mistakes and corrections\n2. Word choice improvements  \n3. Sentence structure suggestions\n4. Pronunciation tips (if obvious from text)\n5. Overall communication effectiveness\n\nBe encouraging but specific about improvements. Format your response clearly with numbered points."

/-- The request `analyze_speech` posts to
`{LM_STUDIO_BASE_URL}/v1/chat/completions`. -/
def analyzeChatRequest (transcript : String) : ChatCompletionRequest :=
  { model := DEFAULT_MODEL
    systemMessage := AI_SYSTEM_MESSAGE
    userPrompt := AI_FEEDBACK_PROMPT transcript
    temperature := LM_STUDIO_TEMPERATURE
    max_tokens := LM_STUDIO_MAX_TOKENS
    timeoutSeconds := LM_STUDIO_TIMEOUT }

/-- Outcome of the `requests.post` call to LM Studio. -/
inductive AIResult where
  /-- `requests.RequestException` raised by `post` itself
  (connection refused / timeout). -/
  | reqExn (msg : String)
  /-- An HTTP response arrived; `ok` is `response.ok` (2xx/3xx) and, for a
  successful response, `content` is
  `response.json()['choices'][0]['message']['content']` (the remote service
  is relied on for this shape). -/
  | httpResp (ok : Bool) (content : String)

/-- The parts of an `/analyze` request the handler reads: whether the JSON
body exists and has a `transcript` key, and that transcript. -/
structure AnalyzeRequest where
  hasTranscript : Bool
  transcript : String

/-- An `/analyze` HTTP result: `ok feedback source` models the 200 payload
`{feedback, source, success: True}`. -/
inductive AnalyzeResponse where
  | ok (feedback source : String)
  | err (status : Nat) (msg : String)
deriving DecidableEq

/-- The HTTP status carried by an `/analyze` result (`jsonify` without an
explicit status returns 200). -/
def AnalyzeResponse.statusCode : AnalyzeResponse → Nat
  | .ok _ _ => 200
  | .err s _ => s

/-- `analyze_speech` — the `/analyze` handler (image_create.py lines
243-296).  A non-`ok` HTTP response raises
`requests.RequestException("LM Studio request failed")`, so it lands in the
same inner `except` as a connection/timeout failure; both run the
rule-based fallback and still answer 200. -/
def analyze_speech (req : AnalyzeRequest) (ai : AIResult) : AnalyzeResponse :=
  if req.hasTranscript = false then .err 400 "No transcript provided"
  else
    match ai with
    | .httpResp true content => .ok content "ai"
    | .httpResp false _ => .ok (analyze_basic_grammar req.transcript) "basic"
    | .reqExn _ => .ok (analyze_basic_grammar req.transcript) "basic"

/-! ## Helper lemmas about strings and the grammar loop -/

theorem grammarLoop_eq (t : String) (rules : List GrammarRule)
    (acc : String) (n : Nat) :
    grammarLoop t rules acc n =
      (acc ++ numberedLinesFrom n (rules.filter (fun r => strContains t r.wrong)),
       n + (rules.filter (fun r => strContains t r.wrong)).length) := by
  induction rules generalizing acc n with
  | nil => simp [grammarLoop, numberedLinesFrom, String.append_empty]
  | cons r rs ih =>
    by_cases h : strContains t r.wrong
    · simp only [grammarLoop, h, if_true, List.filter_cons, ih,
        numberedLinesFrom, List.length_cons, Prod.mk.injEq]
      exact ⟨String.append_assoc _ _ _, by omega⟩
    · simp only [grammarLoop, h, if_false, List.filter_cons, ih,
        Bool.false_eq_true, Prod.mk.injEq]

theorem analyze_basic_grammar_eq (t : String) :
    analyze_basic_grammar t =
      if matchedRules t = [] then noMistakesMsg
      else feedbackHeader ++ numberedLinesFrom 0 (matchedRules t)
            ++ closingLine (matchedRules t).length := by
  unfold analyze_basic_grammar
  rw [grammarLoop_eq]
  simp only [Nat.zero_add, matchedRules]
  by_cases h : GRAMMAR_CORRECTIONS.filter (fun r => strContains t r.wrong) = []
  · simp [h]
  · have hlen : (GRAMMAR_CORRECTIONS.filter (fun r => strContains t r.wrong)).length ≠ 0 := by
      simpa [List.length_eq_zero] using h
    simp [h, hlen]

theorem filter_eq_of_map_eq {α : Type} (p q : α → Bool) (l : List α)
    (h : l.map p = l.map q) : l.filter p = l.filter q := by
  induction l with
  | nil => rfl
  | cons a as ih =>
    simp only [List.map_cons, List.cons.injEq] at h
    obtain ⟨h1, h2⟩ := h
    simp [List.filter_cons, h1, ih h2]

/-! ## Helper lemmas about the filesystem model -/

theorem filter_ne_of_not_mem (p : String) (fs : List String) (h : p ∉ fs) :
    fs.filter (fun q => decide (q ≠ p)) = fs := by
  apply List.filter_eq_self.mpr
  intro a ha
  simp only [decide_eq_true_eq]
  rintro rfl
  exact h ha

theorem checkDelete_none (fs : List String) : checkDelete none fs = fs := rfl

theorem checkDelete_not_mem (p : String) (fs : List String) (h : p ∉ fs) :
    checkDelete (some p) fs = fs := by
  simp [checkDelete, h]

theorem checkDelete_eq_filter (p : String) (fs : List String) :
    checkDelete (some p) fs = fs.filter (fun q => decide (q ≠ p)) := by
  show (if p ∈ fs then fs.filter (fun q => decide (q ≠ p)) else fs)
      = fs.filter (fun q => decide (q ≠ p))
  by_cases h : p ∈ fs
  · rw [if_pos h]
  · rw [if_neg h, filter_ne_of_not_mem p fs h]

theorem not_mem_checkDelete_self (p : String) (fs : List String) :
    p ∉ checkDelete (some p) fs := by
  rw [checkDelete_eq_filter]
  simp [List.mem_filter]

theorem cleanup_one (a : String) (fs : List String) (ha : a ∉ fs) :
    cleanupFiles (some a) none (a :: fs) = fs := by
  show checkDelete none (checkDelete (some a) (a :: fs)) = fs
  rw [checkDelete_none, checkDelete_eq_filter]
  simp [List.filter_cons]
  exact fun x hx e => ha (e ▸ hx)

theorem cleanup_two (a b : String) (fs : List String) (ha : a ∉ fs) (hb : b ∉ fs) :
    cleanupFiles (some a) (some b) (b :: a :: fs) = fs := by
  show checkDelete (some b) (checkDelete (some a) (b :: a :: fs)) = fs
  rw [checkDelete_eq_filter, checkDelete_eq_filter]
  by_cases e : b = a
  · subst e
    simp [List.filter_cons]
    exact fun x hx e => hb (e ▸ hx)
  · simp [List.filter_cons, e]
    exact fun x hx => ⟨fun q => hb (q ▸ hx), fun q => ha (q ▸ hx)⟩

theorem not_mem_cleanup_fixed (a b : String) (fs : List String) :
    b ∉ cleanupFiles (some a) (some b) fs :=
  not_mem_checkDelete_self b _

/-! ## Claim theorems -/

/-- Claim C1: for every call to the `/transcribe` pipeline — success or any
failure (validation rejection, conversion error, transcription error) —
both the persisted original upload file and the derived normalized WAV file
are absent from storage when the call returns: provided neither path
pre-existed (each call's names carry a fresh timestamp and uuid), the final
filesystem is exactly the initial one, and in particular contains neither
path.  The `finally`-block cleanup is check-then-delete, so the branches
where a path variable is set but the file was never created are safe. -/
theorem transcribe_cleanup_all_paths (req : TranscribeRequest) (o : Oracle)
    (fs : List String) (h1 : originalPath req ∉ fs) (h2 : fixedPath req ∉ fs) :
    (transcribe_audio req o fs).2 = fs ∧
    originalPath req ∉ (transcribe_audio req o fs).2 ∧
    fixedPath req ∉ (transcribe_audio req o fs).2 := by
  have key : (transcribe_audio req o fs).2 = fs := by
    by_cases h : req.hasAudio = false
    · simp [transcribe_audio, h, cleanupFiles, checkDelete]
    · by_cases hF : req.filename = ""
      · simp [transcribe_audio, h, hF, cleanupFiles, checkDelete]
      · by_cases hE : allowed_file req.filename = false
        · simp [transcribe_audio, h, hF, hE, cleanupFiles, checkDelete]
        · by_cases hM : MAX_CONTENT_LENGTH < req.fileSize
          · simp [transcribe_audio, h, hF, hE, hM, cleanupFiles,
              checkDelete_none, checkDelete_not_mem _ _ h1]
          · by_cases hm : req.fileSize < MIN_AUDIO_SIZE
            · simp [transcribe_audio, h, hF, hE, hM, hm, cleanupFiles,
                checkDelete_none, checkDelete_not_mem _ _ h1]
            · cases hc : o.convert with
              | fail msg =>
                simp [transcribe_audio, h, hF, hE, hM, hm, hc,
                  cleanup_one _ _ h1]
              | ok =>
                cases hw : o.whisper with
                | fail msg =>
                  simp [transcribe_audio, h, hF, hE, hM, hm, hc, hw,
                    cleanup_two _ _ _ h1 h2]
                | ok text =>
                  simp [transcribe_audio, h, hF, hE, hM, hm, hc, hw,
                    cleanup_two _ _ _ h1 h2]
  refine ⟨key, ?_, ?_⟩
  · rw [key]; exact h1
  · rw [key]; exact h2

/-- Claim C1 witness: a concrete fully successful call on an empty store
leaves the store empty. -/
theorem transcribe_cleanup_all_paths_witness :
    (transcribe_audio ⟨true, "clip.wav", "clip.wav", "20250101_120000", "abcd1234", 5000⟩
        ⟨.ok, .ok " hello "⟩ []).2 = [] :=
  (transcribe_cleanup_all_paths _ _ _ (by decide) (by decide)).1

/-- Claim C2: with a transcript present, the `/analyze` handler returns the
AI text tagged `source=ai` exactly when the remote call yields a successful
response (even with empty content); a connectivity/timeout exception or a
non-success response — and only those — produce the rule-based fallback
tagged `source=basic`; and in every case the HTTP status is 200, so remote
unavailability is never surfaced as an error. -/
theorem analyze_fallback_policy (t : String) (ai : AIResult) :
    (∀ c, ai = .httpResp true c → analyze_speech ⟨true, t⟩ ai = .ok c "ai") ∧
    (∀ m, ai = .reqExn m →
      analyze_speech ⟨true, t⟩ ai = .ok (analyze_basic_grammar t) "basic") ∧
    (∀ c, ai = .httpResp false c →
      analyze_speech ⟨true, t⟩ ai = .ok (analyze_basic_grammar t) "basic") ∧
    (analyze_speech ⟨true, t⟩ ai).statusCode = 200 := by
  refine ⟨?_, ?_, ?_, ?_⟩
  · rintro c rfl; rfl
  · rintro m rfl; rfl
  · rintro c rfl; rfl
  · cases ai with
    | reqExn m => rfl
    | httpResp ok c => cases ok <;> rfl

/-- Claim C2 witness: a successful response with empty content is returned
as `source=ai` with the empty feedback. -/
theorem analyze_fallback_policy_witness :
    analyze_speech ⟨true, "hi"⟩ (.httpResp true "") = .ok "" "ai" :=
  (analyze_fallback_policy "hi" (.httpResp true "")).1 "" rfl

/-- Claim C3: when no rule's wrong phrase occurs as a substring of the
transcript, the fallback returns exactly the single fixed encouraging
"no mistakes found" message. -/
theorem fallback_no_match_message (t : String)
    (h : ∀ r ∈ GRAMMAR_CORRECTIONS, strContains t r.wrong = false) :
    analyze_basic_grammar t = noMistakesMsg := by
  have hm : matchedRules t = [] := by
    apply List.filter_eq_nil_iff.mpr
    intro r hr
    simp [h r hr]
  rw [analyze_basic_grammar_eq, if_pos hm]

/-- Claim C3 witness: the transcript "hello" matches no rule and yields the
fixed message. -/
theorem fallback_no_match_message_witness :
    analyze_basic_grammar "hello" = noMistakesMsg :=
  fallback_no_match_message "hello" (by decide)

/-- Claim C4: when at least one rule matches, the fallback feedback is the
header followed by exactly one numbered correction line per matching rule —
each naming that rule's wrong and correct phrase, numbered 1, 2, ... —
followed by a closing encouragement line whose count is the number of
matching rules. -/
theorem fallback_one_line_per_match (t : String) (h : matchedRules t ≠ []) :
    analyze_basic_grammar t =
      feedbackHeader ++ numberedLinesFrom 0 (matchedRules t)
        ++ closingLine (matchedRules t).length := by
  rw [analyze_basic_grammar_eq, if_neg h]

/-- Claim C4 witness: a transcript containing the wrong phrase
"I have doubt" produces the one-match report. -/
theorem fallback_one_line_per_match_witness :
    analyze_basic_grammar "I have doubt about this" =
      feedbackHeader ++ numberedLinesFrom 0 (matchedRules "I have doubt about this")
        ++ closingLine (matchedRules "I have doubt about this").length :=
  fallback_one_line_per_match _ (by decide)

/-- Claim C5: for all-silent, nonempty decoded audio (every sample zero,
peak 0) normalization takes the `unchanged` branch — no division, no write,
no error — and in general the dividing branch runs only when the computed
peak is strictly positive. -/
theorem normalize_silent_no_division (data : List ℚ) (hne : data ≠ [])
    (h0 : ∀ x ∈ data, x = 0) :
    normalize_audio data = .unchanged ∧
    (∀ d newData, normalize_audio d = .written newData →
      ∃ m, npMaxAbs d = some m ∧ 0 < m ∧ newData = d.map (fun x => x / m)) := by
  constructor
  · match data, hne with
    | x :: xs, _ =>
      have hx : x = 0 := h0 x (by simp)
      have hxs : ∀ y ∈ xs, y = (0 : ℚ) := fun y hy => h0 y (by simp [hy])
      have hfold : ∀ l : List ℚ, (∀ y ∈ l, y = 0) →
          (l.map (fun v => |v|)).foldl max (0 : ℚ) = 0 := by
        intro l
        induction l with
        | nil => intro _; rfl
        | cons y ys ih =>
          intro hl
          have hy : y = 0 := hl y (by simp)
          have := ih (fun z hz => hl z (by simp [hz]))
          simp [hy, this]
      have hmax : npMaxAbs (x :: xs) = some 0 := by
        subst hx
        simp only [npMaxAbs, abs_zero]
        rw [hfold xs hxs]
      simp [normalize_audio, hmax]
  · intro d newData hw
    cases hm : npMaxAbs d with
    | none => simp [normalize_audio, hm] at hw
    | some m =>
      by_cases hpos : 0 < m
      · refine ⟨m, rfl, hpos, ?_⟩
        have hval : normalize_audio d = .written (d.map (fun x => x / m)) := by
          simp [normalize_audio, hm, hpos]
        rw [hval] at hw
        injection hw with hinj
        exact hinj.symm
      · have hval : normalize_audio d = .unchanged := by
          simp [normalize_audio, hm, hpos]
        rw [hval] at hw
        simp at hw

/-- Claim C5 witness: three zero samples are left unchanged. -/
theorem normalize_silent_no_division_witness :
    normalize_audio [0, 0, 0] = .unchanged :=
  (normalize_silent_no_division [0, 0, 0] (by decide) (by decide)).1

/-- Claim C6: validation of `/transcribe` rejects with 400 and its own
distinct message when no file is attached, when the filename is empty, when
the extension is not allow-listed, and when the size is below
`MIN_AUDIO_SIZE`; with 413 when the size exceeds `MAX_CONTENT_LENGTH`; and
a conversion or transcription failure on a valid upload yields 500. -/
theorem transcribe_validation_statuses (req : TranscribeRequest) (o : Oracle)
    (fs : List String) :
    (req.hasAudio = false →
      (transcribe_audio req o fs).1 = .err 400 "No audio file provided") ∧
    (req.hasAudio = true → req.filename = "" →
      (transcribe_audio req o fs).1 = .err 400 "No file selected") ∧
    (req.hasAudio = true → req.filename ≠ "" → allowed_file req.filename = false →
      (transcribe_audio req o fs).1 = .err 400 "File type not allowed") ∧
    (req.hasAudio = true → req.filename ≠ "" → allowed_file req.filename = true →
      MAX_CONTENT_LENGTH < req.fileSize →
      (transcribe_audio req o fs).1 = .err 413 "File too large") ∧
    (req.hasAudio = true → req.filename ≠ "" → allowed_file req.filename = true →
      req.fileSize ≤ MAX_CONTENT_LENGTH → req.fileSize < MIN_AUDIO_SIZE →
      (transcribe_audio req o fs).1 = .err 400 "File too small or empty") ∧
    (∀ m, validUpload req → o.convert = .fail m →
      (transcribe_audio req o fs).1 =
        .err 500 ("Transcription failed: Audio conversion failed: " ++ m)) ∧
    (∀ m, validUpload req → o.convert = .ok → o.whisper = .fail m →
      (transcribe_audio req o fs).1 = .err 500 ("Transcription failed: " ++ m)) := by
  refine ⟨?_, ?_, ?_, ?_, ?_, ?_, ?_⟩
  · intro h; simp [transcribe_audio, h]
  · intro h hF; simp [transcribe_audio, h, hF]
  · intro h hF hE; simp [transcribe_audio, h, hF, hE]
  · intro h hF hE hM; simp [transcribe_audio, h, hF, hE, hM]
  · intro h hF hE hM hm
    simp [transcribe_audio, h, hF, hE, Nat.not_lt.mpr hM, hm]
  · rintro m ⟨h, hF, hE, hM, hm⟩ hc
    simp [transcribe_audio, h, hF, hE, Nat.not_lt.mpr hM, Nat.not_lt.mpr hm, hc]
  · rintro m ⟨h, hF, hE, hM, hm⟩ hc hw
    simp [transcribe_audio, h, hF, hE, Nat.not_lt.mpr hM, Nat.not_lt.mpr hm, hc, hw]

/-- Claim C6 witness: a 500-byte upload (below the 1000-byte minimum) is
rejected 400 with the "too small" message. -/
theorem transcribe_validation_statuses_witness :
    (transcribe_audio ⟨true, "tiny.wav", "tiny.wav", "20250101_120000", "abcd1234", 500⟩
        ⟨.ok, .ok "hi"⟩ []).1 = .err 400 "File too small or empty" :=
  (transcribe_validation_statuses _ _ _).2.2.2.2.1 rfl (by decide) (by decide)
    (by decide) (by decide)

/-- Claim C7: the rule-based fallback is a total function (it cannot raise:
it only walks the static in-memory rule table doing substring containment)
and always returns a non-empty feedback string, so `/analyze` can always
produce a `source=basic` 200 result when the AI service is down. -/
theorem fallback_total_nonempty (t : String) :
    0 < (analyze_basic_grammar t).length ∧
    analyze_speech ⟨true, t⟩ (.reqExn "connection refused") =
      .ok (analyze_basic_grammar t) "basic" := by
  constructor
  · rw [analyze_basic_grammar_eq]
    by_cases h : matchedRules t = []
    · rw [if_pos h]; decide
    · rw [if_neg h]
      rw [String.length_append, String.length_append]
      have hh : 0 < feedbackHeader.length := by decide
      omega
  · rfl

/-- Claim C8 counterexample: the configured sampling temperature sent with
every AI request is 0.7, which is not "close to zero" — it is not even
below one half of the usual 0-to-1 sampling scale (the repository's own
`test_llm.py` uses 0.1 when it wants a "very strict" near-deterministic
setting). -/
theorem chat_temperature_not_near_zero :
    (analyzeChatRequest "").temperature = 7 / 10 ∧
      ¬ (analyzeChatRequest "").temperature ≤ 1 / 2 := by
  constructor
  · rfl
  · norm_num [analyzeChatRequest, LM_STUDIO_TEMPERATURE]

/-- Claim C8 as amended: every `/analyze` AI request is sent with the
bounded 30-second timeout and bounded 500-token response budget from the
configuration, and with the configured sampling temperature 0.7 (a
moderate setting, not a near-zero one). -/
theorem chat_request_bounded_params (transcript : String) :
    (analyzeChatRequest transcript).timeoutSeconds = 30 ∧
    (analyzeChatRequest transcript).max_tokens = 500 ∧
    (analyzeChatRequest transcript).temperature = 7 / 10 :=
  ⟨rfl, rfl, rfl⟩

/-- Claim C9: on every successful `/transcribe` in the config-driven
pipeline the 200 response's `static_path` is built from the basename of
the normalized derived WAV file, yet that very file is deleted by the
`finally` cleanup before the response is returned — the returned
`static_path` never refers to a file still in storage. -/
theorem transcribe_static_path_deleted (req : TranscribeRequest) (o : Oracle)
    (fs : List String) (text : String) (hv : validUpload req)
    (hc : o.convert = .ok) (hw : o.whisper = .ok text) :
    (transcribe_audio req o fs).1 =
      .ok text.trim WHISPER_LANGUAGE req.fileSize (finalFilename req)
        ("static/" ++ AUDIO_UPLOAD_FOLDER ++ "/" ++ basename (fixedPath req)) ∧
    fixedPath req ∉ (transcribe_audio req o fs).2 := by
  obtain ⟨h, hF, hE, hM, hm⟩ := hv
  have hM' := Nat.not_lt.mpr hM
  have hm' := Nat.not_lt.mpr hm
  constructor
  · simp [transcribe_audio, h, hF, hE, hM', hm', hc, hw]
  · have hsnd : (transcribe_audio req o fs).2 =
        cleanupFiles (some (originalPath req)) (some (fixedPath req))
          (fixedPath req :: originalPath req :: fs) := by
      simp [transcribe_audio, h, hF, hE, hM', hm', hc, hw]
    rw [hsnd]
    exact not_mem_cleanup_fixed _ _ _

/-- Claim C9 witness: on a concrete successful call the converted file's
path is absent from the final store. -/
theorem transcribe_static_path_deleted_witness :
    fixedPath ⟨true, "clip.wav", "clip.wav", "20250101_120000", "abcd1234", 5000⟩ ∉
      (transcribe_audio ⟨true, "clip.wav", "clip.wav", "20250101_120000", "abcd1234", 5000⟩
        ⟨.ok, .ok " hello "⟩ []).2 :=
  (transcribe_static_path_deleted _ _ _ " hello "
    ⟨rfl, by decide, by decide, by decide, by decide⟩ rfl rfl).2

/-- Claim C10: matching rules are reported in the fixed order of the static
table — `matchedRules` is a sublist of `GRAMMAR_CORRECTIONS` —, the report
depends only on which table rules match (so where, or how many times, a
wrong phrase occurs in the transcript is irrelevant: one correction line
per matching rule), and the emitted lines are numbered consecutively from 1
(`numberedLinesFrom 0` numbers its lines 1, 2, ...). -/
theorem fallback_table_order_dedup (t : String) :
    List.Sublist (matchedRules t) GRAMMAR_CORRECTIONS ∧
    (∀ t', (GRAMMAR_CORRECTIONS.map fun r => strContains t r.wrong) =
        (GRAMMAR_CORRECTIONS.map fun r => strContains t' r.wrong) →
      analyze_basic_grammar t = analyze_basic_grammar t') ∧
    (matchedRules t ≠ [] →
      analyze_basic_grammar t =
        feedbackHeader ++ numberedLinesFrom 0 (matchedRules t)
          ++ closingLine (matchedRules t).length) := by
  refine ⟨List.filter_sublist _, ?_, ?_⟩
  · intro t' hmap
    have hfilter : matchedRules t = matchedRules t' :=
      filter_eq_of_map_eq _ _ _ hmap
    rw [analyze_basic_grammar_eq, analyze_basic_grammar_eq, hfilter]
  · intro h
    rw [analyze_basic_grammar_eq, if_neg h]

/-- Claim C10 witness: a transcript containing the same wrong phrase twice
gets exactly the report of the transcript containing it once. -/
theorem fallback_table_order_dedup_witness :
    analyze_basic_grammar "I have doubt, I have doubt" =
      analyze_basic_grammar "I have doubt" :=
  (fallback_table_order_dedup "I have doubt, I have doubt").2.1 "I have doubt"
    (by decide)
